import Mathlib

/-!
Shallow embedding of the authorization / user-directory core of the
budget-tracker backend (src/app/services/user_service.py,
src/app/services/auth_service.py, src/app/repositories/user_repository.py).
The relational store is modelled as a `List Users`; stateful service
operations thread the store explicitly and return it alongside an
`Except`-typed result mirroring the Python return-value / raised-exception
behaviour.  `datetime.utcnow()` is passed in as an explicit `now : Nat`.
Response shaping (`_convert_to_response`, which resolves display names for
province/district/facility) is identity on every field the theorems below
mention (ids, role, is_active, pagination counts) and is not modelled.
-/

/-- Roles, from src/app/models/enums/user_enums.py (UserRole). -/
inductive UserRole where
  | accountant
  | admin
  | manager
deriving DecidableEq, Repr

/-- String value of the role enum (UserRole is a str-enum in the source). -/
def UserRole.value : UserRole → String
  | .accountant => "accountant"
  | .admin => "admin"
  | .manager => "manager"

/-- A stored user row, from src/app/models (Users): the columns the
authorization core reads and writes. -/
structure Users where
  id : Nat
  full_name : String
  email : String
  password_hash : String
  province_id : Nat
  district_id : Nat
  facility_id : Nat
  role : UserRole
  is_active : Bool
  created_at : Nat
  updated_at : Nat
deriving DecidableEq, Repr

/-- UserService._can_modify_user (src/app/services/user_service.py lines
256-273), translated branch for branch. -/
def _can_modify_user (current_user : Users) (target_user : Users) : Bool :=
  if current_user.role == UserRole.admin then
    true
  else if current_user.role == UserRole.manager then
    (current_user.district_id == target_user.district_id) &&
      (target_user.role == UserRole.accountant)
  else if current_user.role == UserRole.accountant then
    current_user.id == target_user.id
  else
    false

/-- The spec's decision table for mutation authorization (spec section 4.2(a)),
written from the spec's words: a pure function of exactly the six fields the
claim names.  Compared against `_can_modify_user` in the C1 theorem. -/
def can_modify_spec_table (actorRole : UserRole) (actorDistrict actorId : Nat)
    (targetRole : UserRole) (targetDistrict targetId : Nat) : Bool :=
  match actorRole with
  | .admin => true
  | .manager => (actorDistrict == targetDistrict) && (targetRole == UserRole.accountant)
  | .accountant => actorId == targetId

/-- Requested filter set of UserService.get_users_list / passed through to
UserRepository.get_all.  The role filter is the string the API hands down
(Optional[str] in the source). -/
structure ListFilters where
  facility_id : Option Nat := none
  district_id : Option Nat := none
  province_id : Option Nat := none
  role : Option String := none
  is_active : Option Bool := none
  search : Option String := none
deriving DecidableEq, Repr

/-- The authorization-filter block of UserService.get_users_list (lines
112-128): `current_user` is Optional (default None, and the Python guard is
`if current_user and ...`), managers are pinned to their district_id,
every other non-admin role (i.e. accountant, the `else` branch) is pinned
to its facility_id. -/
def narrowListFilters (current_user : Option Users) (f : ListFilters) : ListFilters :=
  match current_user with
  | none => f
  | some cu =>
    if cu.role != UserRole.admin then
      if cu.role == UserRole.manager then
        match f.district_id with
        | none => { f with district_id := some cu.district_id }
        | some d =>
          if d != cu.district_id then { f with district_id := some cu.district_id }
          else f
      else
        match f.facility_id with
        | none => { f with facility_id := some cu.facility_id }
        | some fid =>
          if fid != cu.facility_id then { f with facility_id := some cu.facility_id }
          else f
    else f

/-- Claim C1: for every (actor, target) pair, `_can_modify_user` equals the
spec's decision table applied to exactly actor.role, actor.district_id,
actor.id, target.role, target.district_id, target.id — Admin is always
allowed, a Manager is allowed iff the target is an Accountant in the
actor's district, an Accountant is allowed iff the target is themself, and
no other combination is allowed. -/
theorem can_modify_matches_spec_table (a t : Users) :
    _can_modify_user a t =
      can_modify_spec_table a.role a.district_id a.id t.role t.district_id t.id := by
  cases h : a.role <;> simp [_can_modify_user, can_modify_spec_table, h]

/-- Claim C2: scope narrowing.  A Manager's effective filter set is the
requested one with district_id replaced by the actor's district_id — both
when the request left it unset and when it requested any (possibly
different) district — and no error is produced; an Accountant's effective
filter set likewise has facility_id pinned to the actor's facility_id; an
Admin's requested filters pass through unchanged. -/
theorem narrow_scope_spec (cu : Users) (f : ListFilters) :
    (cu.role = UserRole.manager →
      narrowListFilters (some cu) f = { f with district_id := some cu.district_id }) ∧
    (cu.role = UserRole.accountant →
      narrowListFilters (some cu) f = { f with facility_id := some cu.facility_id }) ∧
    (cu.role = UserRole.admin → narrowListFilters (some cu) f = f) := by
  refine ⟨fun h => ?_, fun h => ?_, fun h => ?_⟩
  · cases hd : f.district_id with
    | none => simp [narrowListFilters, h, hd]
    | some d =>
      by_cases hde : d = cu.district_id
      · cases f
        simp_all [narrowListFilters]
      · simp [narrowListFilters, h, hd, hde]
  · cases hf : f.facility_id with
    | none => simp [narrowListFilters, h, hf]
    | some v =>
      by_cases hfe : v = cu.facility_id
      · cases f
        simp_all [narrowListFilters]
      · simp [narrowListFilters, h, hf, hfe]
  · simp [narrowListFilters, h]

/-- A sample Manager used to witness the hypotheses of the C2 theorem. -/
def managerUser : Users :=
  { id := 2, full_name := "Manager M", email := "m@example.org",
    password_hash := "h2", province_id := 1, district_id := 7, facility_id := 3,
    role := UserRole.manager, is_active := true, created_at := 0, updated_at := 0 }

/-- A sample requested filter set asking for district 9. -/
def requestedFilters : ListFilters :=
  { district_id := some 9 }

/-- Witness for C2: the Manager of district 7 requesting district 9 is
narrowed to district 7. -/
theorem narrow_scope_spec_witness :
    managerUser.role = UserRole.manager ∧
    narrowListFilters (some managerUser) requestedFilters =
      { requestedFilters with district_id := some managerUser.district_id } :=
  ⟨rfl, (narrow_scope_spec managerUser requestedFilters).1 rfl⟩

/-- Prefix test on character lists, helper for the ILIKE containment below. -/
def isPrefixOfChars : List Char → List Char → Bool
  | [], _ => true
  | _ :: _, [] => false
  | c :: cs, d :: ds => c == d && isPrefixOfChars cs ds

/-- Substring containment on character lists. -/
def containsSub (pat : List Char) : List Char → Bool
  | [] => isPrefixOfChars pat []
  | s :: rest => isPrefixOfChars pat (s :: rest) || containsSub pat rest

/-- SQL `ILIKE '%search%'`: case-insensitive substring containment, used by
UserRepository.get_all for the free-text search over name/email. -/
def ilikeContains (s pat : String) : Bool :=
  containsSub pat.toLower.toList s.toLower.toList

/-- The WHERE conditions of UserRepository.get_all (lines 135-156): each
filter contributes a condition only when it is not None; the search term
contributes only when truthy (non-empty); the role column (a str-enum) is
compared against the role string. -/
def matchesFilters (f : ListFilters) (u : Users) : Bool :=
  (match f.facility_id with | none => true | some v => u.facility_id == v) &&
  (match f.district_id with | none => true | some v => u.district_id == v) &&
  (match f.province_id with | none => true | some v => u.province_id == v) &&
  (match f.role with | none => true | some r => u.role.value == r) &&
  (match f.is_active with | none => true | some b => u.is_active == b) &&
  (match f.search with
   | none => true
   | some s =>
     if s == "" then true
     else ilikeContains u.full_name s || ilikeContains u.email s)

/-- Stable descending insertion by created_at: an element goes after every
earlier element with a greater-or-equal key. -/
def insertDesc (u : Users) : List Users → List Users
  | [] => [u]
  | v :: rest =>
    if u.created_at ≤ v.created_at then v :: insertDesc u rest
    else u :: v :: rest

/-- `ORDER BY created_at DESC` of UserRepository.get_all, as a stable sort. -/
def sortByCreatedDesc : List Users → List Users
  | [] => []
  | u :: rest => insertDesc u (sortByCreatedDesc rest)

/-- UserRepository.get_all (lines 113-168): filter, count the matches,
order newest-first, then apply OFFSET skip / LIMIT limit.  Returns the
page of rows and the total match count. -/
def get_all (store : List Users) (skip limit : Nat) (f : ListFilters) :
    List Users × Nat :=
  let filtered := store.filter (fun u => matchesFilters f u)
  let total := filtered.length
  let sorted := sortByCreatedDesc filtered
  ((sorted.drop skip).take limit, total)

/-- Response shape of the list operation (schemas/user.py UserListResponse),
with rows kept as stored `Users` (see the module comment on response
shaping). -/
structure UserListResponse where
  users : List Users
  total : Nat
  page : Nat
  size : Nat
  total_pages : Nat
deriving DecidableEq, Repr

/-- UserService.get_users_list (lines 96-159): narrow the filters by the
acting user, compute skip = (page - 1) * size, query the repository, and
report total_pages = ceil(total / size) when total > 0 and 1 otherwise
(`math.ceil` on naturals is (total + size - 1) / size). -/
def get_users_list (store : List Users) (page size : Nat) (f : ListFilters)
    (current_user : Option Users) : UserListResponse :=
  let effective := narrowListFilters current_user f
  let skip := (page - 1) * size
  let (users, total) := get_all store skip size effective
  { users := users, total := total, page := page, size := size,
    total_pages := if 0 < total then (total + size - 1) / size else 1 }

/-- Membership after a descending insertion comes from the new element or
the old list. -/
theorem mem_insertDesc {x u : Users} :
    ∀ {l : List Users}, x ∈ insertDesc u l → x = u ∨ x ∈ l := by
  intro l
  induction l with
  | nil =>
    intro hx
    simpa [insertDesc] using hx
  | cons v rest ih =>
    intro hx
    simp only [insertDesc] at hx
    split at hx
    · rcases List.mem_cons.mp hx with h | h
      · exact Or.inr (List.mem_cons.mpr (Or.inl h))
      · rcases ih h with h2 | h2
        · exact Or.inl h2
        · exact Or.inr (List.mem_cons.mpr (Or.inr h2))
    · rcases List.mem_cons.mp hx with h | h
      · exact Or.inl h
      · exact Or.inr h

/-- Sorting by created_at produces no new elements. -/
theorem mem_sortByCreatedDesc {x : Users} :
    ∀ {l : List Users}, x ∈ sortByCreatedDesc l → x ∈ l := by
  intro l
  induction l with
  | nil =>
    intro h
    simp [sortByCreatedDesc] at h
  | cons u rest ih =>
    intro h
    rcases mem_insertDesc h with h1 | h1
    · simp [h1]
    · simp [ih h1]

/-- A deactivated user row. -/
def inactiveUser : Users :=
  { id := 5, full_name := "Inactive I", email := "i@example.org",
    password_hash := "h5", province_id := 1, district_id := 7, facility_id := 3,
    role := UserRole.accountant, is_active := false, created_at := 10, updated_at := 10 }

/-- The default filter set: nothing requested. -/
def noFilters : ListFilters := {}

/-- Claim C3 counterexample: with is_active not provided (None), the listing
returns a user whose is_active flag is false — deactivated users are NOT
excluded from default listings, contradicting the claim. -/
theorem default_listing_includes_inactive :
    noFilters.is_active = none ∧
    inactiveUser.is_active = false ∧
    inactiveUser ∈ (get_all [inactiveUser] 0 20 noFilters).1 := by
  refine ⟨rfl, rfl, ?_⟩
  decide

/-- Claim C3 (amended): when the is_active filter is None the listing applies
no active-status condition at all — whether a row matches is independent of
its is_active flag, so deactivated users are included by default; rows with
is_active = false are excluded exactly when is_active = true is explicitly
requested. -/
theorem get_all_is_active_semantics (store : List Users) (skip limit : Nat)
    (f : ListFilters) (h : f.is_active = none) :
    (∀ u v, matchesFilters f { u with is_active := v } = matchesFilters f u) ∧
    (∀ u, u ∈ (get_all store skip limit { f with is_active := some true }).1 →
      u.is_active = true) := by
  constructor
  · intro u v
    simp [matchesFilters, h]
  · intro u hu
    have h1 : u ∈ sortByCreatedDesc
        (store.filter (fun x => matchesFilters { f with is_active := some true } x)) :=
      List.drop_subset _ _ (List.take_subset _ _ hu)
    have h2 := (List.mem_filter.mp (mem_sortByCreatedDesc h1)).2
    simp only [matchesFilters, Bool.and_eq_true] at h2
    have h3 := h2.1.2
    simpa using h3

/-- Witness for the amended C3 theorem at a concrete deactivated user and the
empty filter set. -/
theorem get_all_is_active_semantics_witness :
    noFilters.is_active = none ∧
    matchesFilters noFilters { inactiveUser with is_active := true } =
      matchesFilters noFilters inactiveUser :=
  ⟨rfl, (get_all_is_active_semantics [] 0 20 noFilters rfl).1 inactiveUser true⟩

/-- Ceiling-division bounds: for positive size and total, the page count
(total + size - 1) / size is the least number of size-sized pages covering
total rows. -/
theorem ceil_div_bounds (t s : Nat) (hs : 0 < s) (ht : 0 < t) :
    s * ((t + s - 1) / s - 1) < t ∧ t ≤ s * ((t + s - 1) / s) := by
  have hq : (t + s - 1) / s = (t - 1) / s + 1 := by
    rw [show t + s - 1 = (t - 1) + s by omega, Nat.add_div_right _ hs]
  have hmod : (t - 1) % s < s := Nat.mod_lt _ hs
  have hdm := Nat.div_add_mod (t - 1) s
  rw [hq, Nat.add_sub_cancel]
  constructor
  · calc s * ((t - 1) / s) = (t - 1) / s * s := Nat.mul_comm _ _
      _ ≤ t - 1 := Nat.div_mul_le_self _ _
      _ < t := Nat.sub_lt ht Nat.one_pos
  · rw [Nat.mul_add, Nat.mul_one]
    have h4 : t - 1 < s * ((t - 1) / s) + s := by
      have h5 := Nat.add_lt_add_left hmod (s * ((t - 1) / s))
      rwa [hdm] at h5
    exact Nat.le_of_pred_lt h4

/-- The total_pages field of the list response unfolds to the source's
`math.ceil(total / size) if total > 0 else 1`. -/
theorem get_users_list_total_pages_eq (store : List Users) (page size : Nat)
    (f : ListFilters) (cu : Option Users) :
    (get_users_list store page size f cu).total_pages =
      (if 0 < (get_users_list store page size f cu).total
       then ((get_users_list store page size f cu).total + size - 1) / size
       else 1) :=
  rfl

/-- Claim C7: for page size > 0, total_pages is exactly ceil(total / size)
when total > 0 (characterized by the covering bounds), equals 1 when total
is 0, is never 0, and 45 matching rows at size 20 give 3 pages. -/
theorem get_users_list_total_pages_spec (store : List Users) (page size : Nat)
    (f : ListFilters) (cu : Option Users) (hs : 0 < size) :
    (0 < (get_users_list store page size f cu).total →
      size * ((get_users_list store page size f cu).total_pages - 1) <
          (get_users_list store page size f cu).total ∧
        (get_users_list store page size f cu).total ≤
          size * (get_users_list store page size f cu).total_pages) ∧
    ((get_users_list store page size f cu).total = 0 →
      (get_users_list store page size f cu).total_pages = 1) ∧
    0 < (get_users_list store page size f cu).total_pages ∧
    (size = 20 → (get_users_list store page size f cu).total = 45 →
      (get_users_list store page size f cu).total_pages = 3) := by
  have htp := get_users_list_total_pages_eq store page size f cu
  generalize hT : (get_users_list store page size f cu).total = t at htp ⊢
  refine ⟨fun hpos => ?_, fun hzero => ?_, ?_, fun hsz h45 => ?_⟩
  · rw [htp, if_pos hpos]
    exact ceil_div_bounds t size hs hpos
  · rw [htp, if_neg (by omega)]
  · rw [htp]
    rcases Nat.eq_zero_or_pos t with h0 | hpos
    · simp [h0]
    · rw [if_pos hpos]
      rcases Nat.eq_zero_or_pos ((t + size - 1) / size) with hq | hq
      · have h2 := (ceil_div_bounds t size hs hpos).2
        rw [hq, Nat.mul_zero] at h2
        omega
      · exact hq
  · subst hsz
    subst h45
    rw [htp]
    norm_num

/-- A store of 45 rows, all matching the empty filter set. -/
def store45 : List Users :=
  (List.range 45).map (fun i => { inactiveUser with id := i + 1 })

/-- Witness for C7: listing the 45-row store with size 20 and page 1 reports
total = 45 and total_pages = 3. -/
theorem get_users_list_total_pages_spec_witness :
    0 < 20 ∧ (get_users_list store45 1 20 noFilters none).total = 45 ∧
      (get_users_list store45 1 20 noFilters none).total_pages = 3 :=
  ⟨by decide, by decide,
    (get_users_list_total_pages_spec store45 1 20 noFilters none (by decide)).2.2.2
      rfl (by decide)⟩

/-- Claim C9: when the list operation is invoked with no acting user, no
scope narrowing happens — the filters pass through unchanged and the
response equals the one an Admin actor would get. -/
theorem list_without_actor_full_visibility (store : List Users)
    (page size : Nat) (f : ListFilters) (cu : Users) :
    narrowListFilters none f = f ∧
    get_users_list store page size f none =
      get_users_list store page size f (some { cu with role := UserRole.admin }) := by
  constructor
  · rfl
  · simp [get_users_list, narrowListFilters]

/-- Service-level failures: ValueError and PermissionError raised by
UserService, kept with their messages. -/
inductive ServiceError where
  | valueError (msg : String)
  | permissionError (msg : String)
deriving DecidableEq, Repr

/-- UserRepository.get_by_id (modulo eager-loading of display names): the
row whose primary key equals user_id. -/
def get_by_id (store : List Users) (user_id : Nat) : Option Users :=
  store.find? (fun u => u.id == user_id)

/-- UserRepository.exists_by_email (lines 170-177): a row with exactly this
email, excluding exclude_id when that argument is truthy (the Python guard
is `if exclude_id:`, so 0 and None both mean no exclusion). -/
def exists_by_email (store : List Users) (email : String)
    (exclude_id : Option Nat) : Bool :=
  let q : List Users := store.filter (fun u => u.email == email)
  let q2 : List Users :=
    match exclude_id with
    | some e => if e != 0 then q.filter (fun u => u.id != e) else q
    | none => q
  q2.head?.isSome

/-- Partial update payload (schemas/user.py UserUpdate): unset fields are
None and are skipped by `model_dump(exclude_unset=True)`. -/
structure UserUpdate where
  full_name : Option String := none
  email : Option String := none
  province_id : Option Nat := none
  district_id : Option Nat := none
  facility_id : Option Nat := none
  role : Option UserRole := none
  is_active : Option Bool := none
deriving DecidableEq, Repr

/-- Creation payload (schemas/user.py UserCreate). -/
structure UserCreate where
  full_name : String
  email : String
  province_id : Nat
  district_id : Nat
  facility_id : Nat
  role : UserRole
  is_active : Bool
  password : String
deriving DecidableEq, Repr

/-- Applying a partial update to a row: each set field overwrites the
column, updated_at is stamped with now (UserRepository.update lines 79-83). -/
def applyUpdate (upd : UserUpdate) (u : Users) (now : Nat) : Users :=
  { u with
    full_name := upd.full_name.getD u.full_name
    email := upd.email.getD u.email
    province_id := upd.province_id.getD u.province_id
    district_id := upd.district_id.getD u.district_id
    facility_id := upd.facility_id.getD u.facility_id
    role := upd.role.getD u.role
    is_active := upd.is_active.getD u.is_active
    updated_at := now }

/-- Replace the first row with the given primary key. -/
def replaceById (store : List Users) (user_id : Nat) (g : Users → Users) : List Users :=
  match store with
  | [] => []
  | u :: rest =>
    if u.id == user_id then g u :: rest
    else u :: replaceById rest user_id g

/-- UserRepository.update (lines 73-87): None when the id is unknown,
otherwise the updated row and the new store. -/
def userRepo_update (store : List Users) (user_id : Nat) (upd : UserUpdate)
    (now : Nat) : Option Users × List Users :=
  match store.find? (fun u => u.id == user_id) with
  | none => (none, store)
  | some _ =>
    let store2 := replaceById store user_id (fun u => applyUpdate upd u now)
    (store2.find? (fun u => u.id == user_id), store2)

/-- UserRepository.delete (lines 101-111): soft delete, is_active := false. -/
def userRepo_delete (store : List Users) (user_id : Nat) (now : Nat) :
    Bool × List Users :=
  match store.find? (fun u => u.id == user_id) with
  | none => (false, store)
  | some _ =>
    (true, replaceById store user_id
      (fun u => { u with is_active := false, updated_at := now }))

/-- UserService.create_user (lines 15-28): duplicate e-mail check first,
then hash the plaintext password and insert the new row.  The password
hashing scheme (bcrypt via passlib) is an external library, abstracted as
the function argument `hash`; the id the database assigns is `next_id`. -/
def create_user (hash : String → String) (store : List Users)
    (user_data : UserCreate) (now next_id : Nat) :
    Except ServiceError Users × List Users :=
  if exists_by_email store user_data.email none then
    (Except.error (ServiceError.valueError "Email already registered"), store)
  else
    let password_hash := hash user_data.password
    let user : Users :=
      { id := next_id, full_name := user_data.full_name, email := user_data.email,
        password_hash := password_hash, province_id := user_data.province_id,
        district_id := user_data.district_id, facility_id := user_data.facility_id,
        role := user_data.role, is_active := user_data.is_active,
        created_at := now, updated_at := now }
    (Except.ok user, store ++ [user])

/-- UserService.update_user (lines 50-75): existence check, then
authorization, then e-mail uniqueness (the Python guard `if user_data.email
and ...` skips the check for None or empty string), then the repository
update. -/
def update_user (store : List Users) (user_id : Nat) (user_data : UserUpdate)
    (current_user : Users) (now : Nat) :
    Except ServiceError (Option Users) × List Users :=
  match get_by_id store user_id with
  | none => (Except.ok none, store)
  | some existing_user =>
    if !(_can_modify_user current_user existing_user) then
      (Except.error (ServiceError.permissionError "Not authorized to modify this user"),
        store)
    else if (match user_data.email with
             | some e => e != "" && exists_by_email store e (some user_id)
             | none => false) then
      (Except.error (ServiceError.valueError "Email already registered"), store)
    else
      let r := userRepo_update store user_id user_data now
      (Except.ok r.1, r.2)

/-- UserService.delete_user (lines 77-94): existence check, then the
self-deletion guard, then authorization, then the repository soft delete. -/
def delete_user (store : List Users) (user_id : Nat) (current_user : Users)
    (now : Nat) : Except ServiceError Bool × List Users :=
  match get_by_id store user_id with
  | none => (Except.ok false, store)
  | some existing_user =>
    if existing_user.id == current_user.id then
      (Except.error (ServiceError.valueError "Cannot delete your own account"), store)
    else if !(_can_modify_user current_user existing_user) then
      (Except.error (ServiceError.permissionError "Not authorized to delete this user"),
        store)
    else
      let r := userRepo_delete store user_id now
      (Except.ok r.1, r.2)

/-- UserService.deactivate_user (lines 212-232): existence check, then the
self-deactivation guard, then authorization, then update is_active := false. -/
def deactivate_user (store : List Users) (user_id : Nat) (current_user : Users)
    (now : Nat) : Except ServiceError Bool × List Users :=
  match get_by_id store user_id with
  | none => (Except.ok false, store)
  | some existing_user =>
    if existing_user.id == current_user.id then
      (Except.error (ServiceError.valueError "Cannot deactivate your own account"),
        store)
    else if !(_can_modify_user current_user existing_user) then
      (Except.error
        (ServiceError.permissionError "Not authorized to deactivate this user"), store)
    else
      let r := userRepo_update store user_id { is_active := some false } now
      (Except.ok r.1.isSome, r.2)

/-- Claim C4: for every actor whose record exists, self-deactivation fails
with the business-rule ValueError regardless of role — before the
authorization check, which may well allow can_modify(actor, actor) — and
the store is unchanged by the failed call. -/
theorem deactivate_self_always_fails (store : List Users) (actor : Users)
    (now : Nat) (h : (get_by_id store actor.id).isSome = true) :
    deactivate_user store actor.id actor now =
      (Except.error (ServiceError.valueError "Cannot deactivate your own account"),
        store) := by
  obtain ⟨ex, hex⟩ := Option.isSome_iff_exists.mp h
  have hex2 : store.find? (fun u => u.id == actor.id) = some ex := hex
  have hid : ex.id = actor.id := by
    have h3 := List.find?_some hex2
    simpa using h3
  simp [deactivate_user, get_by_id, hex2, hid]

/-- Witness for C4: a Manager deactivating their own existing account fails
and leaves the store untouched. -/
theorem deactivate_self_always_fails_witness :
    (get_by_id [managerUser] managerUser.id).isSome = true ∧
    deactivate_user [managerUser] managerUser.id managerUser 0 =
      (Except.error (ServiceError.valueError "Cannot deactivate your own account"),
        [managerUser]) :=
  ⟨by decide, deactivate_self_always_fails [managerUser] managerUser 0 (by decide)⟩

/-- Claim C8: creating a user whose email exactly matches a stored row's
email fails with the duplicate ValueError and leaves the store unchanged;
every successful create stores exactly the hash of the supplied plaintext
password and only appends the new row. -/
theorem create_user_conflict_and_hashing (hash : String → String)
    (store : List Users) (user_data : UserCreate) (now next_id : Nat) :
    ((∃ u ∈ store, u.email = user_data.email) →
      create_user hash store user_data now next_id =
        (Except.error (ServiceError.valueError "Email already registered"), store)) ∧
    (∀ u store2,
      create_user hash store user_data now next_id = (Except.ok u, store2) →
        u.password_hash = hash user_data.password ∧ store2 = store ++ [u]) := by
  constructor
  · rintro ⟨u, hu, he⟩
    have hmem : u ∈ store.filter (fun v => v.email == user_data.email) :=
      List.mem_filter.mpr ⟨hu, by simp [he]⟩
    have hex : exists_by_email store user_data.email none = true := by
      show (store.filter (fun v => v.email == user_data.email)).head?.isSome = true
      cases hfl : store.filter (fun v => v.email == user_data.email) with
      | nil =>
        rw [hfl] at hmem
        exact absurd hmem (List.not_mem_nil u)
      | cons a as => simp
    simp [create_user, hex]
  · intro u store2 hok
    by_cases hex : exists_by_email store user_data.email none = true
    · simp [create_user, hex] at hok
    · simp [create_user, hex] at hok
      obtain ⟨h1, h2⟩ := hok
      subst h2
      subst h1
      exact ⟨rfl, rfl⟩

/-- A creation request reusing the stored inactive user's email. -/
def dupCreate : UserCreate :=
  { full_name := "Dup D", email := "i@example.org", province_id := 1,
    district_id := 7, facility_id := 3, role := UserRole.accountant,
    is_active := true, password := "password1" }

/-- Witness for C8: creating against a store already holding that email is
rejected with the store unchanged. -/
theorem create_user_conflict_and_hashing_witness :
    (∃ u ∈ [inactiveUser], u.email = dupCreate.email) ∧
    create_user (fun p => String.append p "#h") [inactiveUser] dupCreate 0 6 =
      (Except.error (ServiceError.valueError "Email already registered"),
        [inactiveUser]) :=
  ⟨⟨inactiveUser, by decide, by decide⟩,
    (create_user_conflict_and_hashing (fun p => String.append p "#h")
        [inactiveUser] dupCreate 0 6).1 ⟨inactiveUser, by decide, by decide⟩⟩

/-- Claim C10: for every actor and every id absent from the store, update,
delete and deactivate return the not-found result (None / False) with the
store unchanged and never reach the authorization check — so no Forbidden
error is possible for a nonexistent id. -/
theorem notfound_precedes_authorization (store : List Users) (user_id : Nat)
    (user_data : UserUpdate) (actor : Users) (now : Nat)
    (h : get_by_id store user_id = none) :
    update_user store user_id user_data actor now = (Except.ok none, store) ∧
    delete_user store user_id actor now = (Except.ok false, store) ∧
    deactivate_user store user_id actor now = (Except.ok false, store) := by
  refine ⟨?_, ?_, ?_⟩ <;>
    simp [update_user, delete_user, deactivate_user, h]

/-- Witness for C10: id 99 is absent, and update on it reports None with the
store unchanged. -/
theorem notfound_precedes_authorization_witness :
    get_by_id [managerUser] 99 = none ∧
    update_user [managerUser] 99 {} managerUser 0 =
      (Except.ok none, [managerUser]) :=
  ⟨by decide,
    (notfound_precedes_authorization [managerUser] 99 {} managerUser 0 (by decide)).1⟩

/-- A decoded JWT claim set: the claims this service ever encodes.  A claim
absent from the encoded dict is None, matching `payload.get(...)`. -/
structure JwtPayload where
  sub : Option String := none
  user_id : Option Nat := none
  type : Option String := none
  exp : Nat
deriving DecidableEq, Repr

/-- A signed token, modelled as its claim set plus the signing key; decoding
succeeds only with the same key (signature verification). -/
structure Jwt where
  payload : JwtPayload
  key : String
deriving DecidableEq, Repr

/-- jose `jwt.decode` at time now: the signature must verify (same secret)
and the exp claim must not lie in the past (ExpiredSignatureError, a
JWTError, when exp < now); all failures collapse to the uniform None. -/
def jwt_decode (token : Jwt) (key : String) (now : Nat) : Option JwtPayload :=
  if token.key = key ∧ now ≤ token.payload.exp then some token.payload
  else none

/-- AuthService configuration (auth_service.py lines 102-110): the signing
secret and the configured access-token lifetime in minutes. -/
structure AuthService where
  secret_key : String
  access_token_expire_minutes : Nat
deriving DecidableEq, Repr

/-- schemas/auth.py TokenData: what verify_token returns. -/
structure TokenData where
  email : String
  user_id : Nat
deriving DecidableEq, Repr

/-- AuthService.create_access_token (lines 120-130) as invoked by login with
data = the subject email plus the user id: exp is now plus expires_delta
when given, else now plus the configured lifetime; times in seconds. -/
def create_access_token (svc : AuthService) (sub : String) (user_id : Nat)
    (now : Nat) (expires_delta : Option Nat) : Jwt :=
  let expire := now + expires_delta.getD (svc.access_token_expire_minutes * 60)
  { payload := { sub := some sub, user_id := some user_id, exp := expire },
    key := svc.secret_key }

/-- AuthService.verify_token (lines 132-144): decode, then require both the
sub and user_id claims; any JWTError or missing claim yields None. -/
def verify_token (svc : AuthService) (token : Jwt) (now : Nat) :
    Option TokenData :=
  match jwt_decode token svc.secret_key now with
  | none => none
  | some payload =>
    match payload.sub, payload.user_id with
    | some email, some uid => some { email := email, user_id := uid }
    | _, _ => none

/-- AuthService.create_password_reset_token (lines 230-236): sub = email,
a "password_reset" type discriminator, 1-hour (3600 s) expiry, no user_id
claim. -/
def create_password_reset_token (svc : AuthService) (email : String)
    (now : Nat) : Jwt :=
  { payload := { sub := some email, type := some "password_reset",
                 exp := now + 3600 },
    key := svc.secret_key }

/-- AuthService.verify_password_reset_token (lines 238-250): decode, then
require the sub claim and the exact "password_reset" type discriminator. -/
def verify_password_reset_token (svc : AuthService) (token : Jwt)
    (now : Nat) : Option String :=
  match jwt_decode token svc.secret_key now with
  | none => none
  | some payload =>
    match payload.sub with
    | none => none
    | some email =>
      if payload.type = some "password_reset" then some email else none

/-- Claim C5: verifying an access token issued at t0 for (email, uid) while
the configured expiry has not yet elapsed returns exactly that pair; once
the expiry has elapsed it returns the uniform invalid result None. -/
theorem access_token_roundtrip (svc : AuthService) (email : String)
    (uid : Nat) (t0 t1 : Nat) :
    (t1 ≤ t0 + svc.access_token_expire_minutes * 60 →
      verify_token svc
        (create_access_token svc email uid t0
          (some (svc.access_token_expire_minutes * 60))) t1 =
        some { email := email, user_id := uid }) ∧
    (t0 + svc.access_token_expire_minutes * 60 < t1 →
      verify_token svc
        (create_access_token svc email uid t0
          (some (svc.access_token_expire_minutes * 60))) t1 = none) := by
  constructor
  · intro h
    simp [verify_token, create_access_token, jwt_decode, h]
  · intro h
    have h2 : ¬ t1 ≤ t0 + svc.access_token_expire_minutes * 60 := by omega
    simp [verify_token, create_access_token, jwt_decode, h2]

/-- A concrete AuthService configuration (30-minute expiry, as the default). -/
def sampleAuth : AuthService :=
  { secret_key := "server-secret", access_token_expire_minutes := 30 }

/-- Witness for C5: at 100 s the token verifies to the pair, at 2000 s
(past the 1800 s lifetime) it is invalid. -/
theorem access_token_roundtrip_witness :
    (100 ≤ 0 + sampleAuth.access_token_expire_minutes * 60 ∧
      verify_token sampleAuth
        (create_access_token sampleAuth "m@example.org" 2 0
          (some (sampleAuth.access_token_expire_minutes * 60))) 100 =
        some { email := "m@example.org", user_id := 2 }) ∧
    (0 + sampleAuth.access_token_expire_minutes * 60 < 2000 ∧
      verify_token sampleAuth
        (create_access_token sampleAuth "m@example.org" 2 0
          (some (sampleAuth.access_token_expire_minutes * 60))) 2000 = none) :=
  ⟨⟨by decide,
      (access_token_roundtrip sampleAuth "m@example.org" 2 0 100).1 (by decide)⟩,
    ⟨by decide,
      (access_token_roundtrip sampleAuth "m@example.org" 2 0 2000).2 (by decide)⟩⟩

/-- Claim C6: type isolation.  A password-reset token never passes
verify_token (it carries no user_id claim), and an access token never
passes verify_password_reset_token (it carries no "password_reset" type
discriminator) — at any verification time, for any expiry argument. -/
theorem token_type_isolation (svc : AuthService) (email : String) (uid : Nat)
    (t0 t1 : Nat) (d : Option Nat) :
    verify_token svc (create_password_reset_token svc email t0) t1 = none ∧
    verify_password_reset_token svc (create_access_token svc email uid t0 d) t1 =
      none := by
  constructor
  · by_cases hc : t1 ≤ t0 + 3600
    · simp [verify_token, create_password_reset_token, jwt_decode, hc]
    · simp [verify_token, create_password_reset_token, jwt_decode, hc]
  · by_cases hc : t1 ≤ t0 + d.getD (svc.access_token_expire_minutes * 60)
    · simp [verify_password_reset_token, create_access_token, jwt_decode, hc]
    · simp [verify_password_reset_token, create_access_token, jwt_decode, hc]
